import Mathlib

/-!
Verification of the torrent intake and delivery core
(`src/backend/src/handlers/torrent.rs`).

The Rust handler file is shallowly embedded below.  Pure computations
(SQL string composition, sort-key mapping, announce personalization,
multipart intake) are translated into executable Lean definitions;
the effectful collaborators that live outside the given source file
(database, tracker, filesystem, authentication) are passed in as
explicit `Except` results, exactly at the points where the handler
awaits them.  Collaborator behaviour that the handler relies on but
whose code is not part of the repository snapshot (the category
verifier, the bencode codec, SQL execution semantics) is modelled
from the specification; each such definition is marked
`Modelled from the spec:` in its documentation.
-/

namespace Torrust

/-- Error taxonomy of the service, from the specification (section 7);
the `errors.rs` module itself is outside the provided source tree.
Modelled from the spec: the enumerated error kinds used by the handlers. -/
inductive ServiceError where
  | BadRequest
  | Unauthorized
  | InvalidCategory
  | InvalidFileType
  | InvalidTorrentFile
  | TorrentNotFound
  | TrackerUnavailable
  | InternalServerError
deriving DecidableEq, Repr

/-- The single-quote character, used when the query builder embeds a
validated category name as a SQL string literal. -/
def squote : String := String.singleton (Char.ofNat 39)

/-- The struct `DisplayInfo`, the query parameters of `get_torrents`.
`categories` holds the comma-separated list already split by the
`as_csv` helper (that helper lives outside the provided source);
the remaining fields are the deserialized optional parameters. -/
structure DisplayInfo where
  page_size : Option Int
  page : Option Int
  sort : Option String
  categories : Option (List String)
  search : Option String

/-- Two's-complement wrap-around of a mathematical integer into the
`i32` range, modelling Rust release-mode arithmetic on `i32`. -/
def wrap32 (n : Int) : Int := (n + 2 ^ 31) % 2 ^ 32 - 2 ^ 31

/-- The value `params.page.unwrap_or(0)` in `get_torrents`. -/
def effectivePage (params : DisplayInfo) : Int := params.page.getD 0

/-- The value `params.page_size.unwrap_or(30)` in `get_torrents`. -/
def effectivePageSize (params : DisplayInfo) : Int := params.page_size.getD 30

/-- The value `page * page_size` bound as the offset in `get_torrents` (an `i32` product). -/
def listingOffset (params : DisplayInfo) : Int :=
  wrap32 (effectivePage params * effectivePageSize params)

/-- The `LIKE` pattern built from the optional `search` parameter:
absent search gives `%`, otherwise `%term%`. -/
def searchPattern (params : DisplayInfo) : String :=
  match params.search with
  | none => "%"
  | some v => "%" ++ v ++ "%"

/-- The `sort_query` match of `get_torrents`: maps the optional `sort`
parameter to an `ORDER BY` fragment, defaulting to `upload_date DESC`. -/
def sort_query (sort : Option String) : String :=
  match sort with
  | some s =>
    match s with
    | "uploaded_ASC" => "upload_date ASC"
    | "uploaded_DESC" => "upload_date DESC"
    | "seeders_ASC" => "seeders ASC"
    | "seeders_DESC" => "seeders DESC"
    | "leechers_ASC" => "leechers ASC"
    | "leechers_DESC" => "leechers DESC"
    | "name_ASC" => "title ASC"
    | "name_DESC" => "title DESC"
    | "size_ASC" => "file_size ASC"
    | "size_DESC" => "file_size DESC"
    | _ => "upload_date DESC"
  | none => "upload_date DESC"

/-- The ten recognized sort keys. -/
def knownSortKeys : List String :=
  ["uploaded_ASC", "uploaded_DESC", "seeders_ASC", "seeders_DESC",
   "leechers_ASC", "leechers_DESC", "name_ASC", "name_DESC",
   "size_ASC", "size_DESC"]

/-- Modelled from the spec: `database.verify_category` resolves a
user-supplied category name against the category table and returns the
stored name when it exists, `None` otherwise.  The database module is
outside the provided source tree; the category table is passed in as
the list of its names. -/
def verify_category (table : List String) (category : String) : Option String :=
  if table.contains category then some category else none

/-- The literal predicate built for one validated category name:
`tc.name = 'NAME'`. -/
def categoryLiteral (name : String) : String :=
  "tc.name = " ++ squote ++ name ++ squote

/-- The accumulation loop of `get_torrents` that builds the category
filter string: `i` counts predicates already emitted, `acc` is the
string built so far; a name that fails `verify_category` contributes
nothing, a validated name is appended as a literal predicate, with
`" OR "` prepended when it is not the first. -/
def categoryFiltersAux (table : List String) :
    List String → Nat → String → String
  | [], _, acc => acc
  | category :: rest, i, acc =>
    match verify_category table category with
    | some sanitized =>
      let str := categoryLiteral sanitized
      let str := if i > 0 then " OR " ++ str else str
      categoryFiltersAux table rest (i + 1) (acc ++ str)
    | none => categoryFiltersAux table rest i acc

/-- The `category_filter_query` of `get_torrents`: when at least one
supplied name validates, an `INNER JOIN` clause whose predicate is the
OR-join of the validated literals; otherwise the empty string. -/
def category_filter_query (table : List String)
    (categories : Option (List String)) : String :=
  match categories with
  | some c =>
    let category_filters := categoryFiltersAux table c 0 ""
    if category_filters.length > 0 then
      "INNER JOIN torrust_categories tc ON tt.category_id = tc.category_id AND ("
        ++ category_filters ++ ")"
    else
      ""
  | none => ""

/-- A value bound as a SQL parameter (`sqlx` `bind`). -/
inductive BindValue where
  | str (s : String)
  | int (i : Int)
deriving DecidableEq, Repr

/-- A SQL statement as issued: the query text together with the
ordered list of bound parameters. -/
structure SqlQuery where
  sql : String
  binds : List BindValue
deriving DecidableEq, Repr

/-- The base `SELECT` text of `get_torrents` before `ORDER BY`:
`SELECT tt.* FROM torrust_torrents tt <filter> WHERE title LIKE ?`. -/
def baseQueryString (table : List String) (params : DisplayInfo) : String :=
  "SELECT tt.* FROM torrust_torrents tt "
    ++ category_filter_query table params.categories
    ++ " WHERE title LIKE ?"

/-- The count statement of `get_torrents`: wraps the base `SELECT`
as a subquery and binds the search pattern. -/
def countQuery (table : List String) (params : DisplayInfo) : SqlQuery :=
  { sql := "SELECT COUNT(torrent_id) as count FROM ("
      ++ baseQueryString table params ++ ")"
    binds := [BindValue.str (searchPattern params)] }

/-- The row statement of `get_torrents`: appends `ORDER BY` and
`LIMIT ?, ?` to the base `SELECT` and binds search pattern, offset
and page size, in that order. -/
def rowsQuery (table : List String) (params : DisplayInfo) : SqlQuery :=
  { sql := baseQueryString table params ++ " ORDER BY "
      ++ sort_query params.sort ++ " LIMIT ?, ?"
    binds := [BindValue.str (searchPattern params),
              BindValue.int (listingOffset params),
              BindValue.int (effectivePageSize params)] }

/-! ## Relational semantics of the listing queries

Modelled from the spec: the database engine is an external
collaborator; the definitions below give the standard SQL meaning of
the two statements that `get_torrents` issues, over an explicit table
state, so that the count/results agreement can be stated. -/

/-- A row of `torrust_torrents` (the columns that the listing queries
read: the sort columns, the `LIKE` target and the join key). -/
structure TorrentRow where
  torrent_id : Int
  uploader : String
  title : String
  category_id : Int
  upload_date : Int
  file_size : Int
  seeders : Int
  leechers : Int
deriving DecidableEq, Repr

/-- A row of `torrust_categories`. -/
structure CategoryRow where
  category_id : Int
  name : String
deriving DecidableEq, Repr

/-- The database state the listing touches. -/
structure Db where
  torrents : List TorrentRow
  categories : List CategoryRow
deriving DecidableEq, Repr

/-- ASCII lower-casing of a character, for `LIKE` case folding. -/
def asciiLower (c : Char) : Char :=
  if c.toNat ≥ 65 ∧ c.toNat ≤ 90 then Char.ofNat (c.toNat + 32) else c

/-- Modelled from the spec: SQL `LIKE` matching over characters, with
`%` matching any run and `_` any single character, comparing other
characters ASCII-case-insensitively (SQLite default).  `fuel` bounds
the recursion; every step shortens pattern or subject, so
`sqlLike` supplies more fuel than any input can use. -/
def likeMatchChars : Nat → List Char → List Char → Bool
  | 0, _, _ => false
  | _ + 1, [], [] => true
  | _ + 1, [], _ :: _ => false
  | fuel + 1, p :: ps, s =>
    if p = Char.ofNat 37 then
      likeMatchChars fuel ps s
        || (match s with
            | [] => false
            | _ :: rest => likeMatchChars fuel (p :: ps) rest)
    else
      match s with
      | [] => false
      | c :: rest =>
        (p = Char.ofNat 95 || asciiLower p = asciiLower c)
          && likeMatchChars fuel ps rest

/-- SQL `LIKE` on strings. -/
def sqlLike (pattern s : String) : Bool :=
  likeMatchChars (pattern.data.length + s.data.length + 1) pattern.data s.data

/-- The validated category names: the user-supplied names that pass
`verify_category`, in order. -/
def validatedCategories (table : List String)
    (categories : Option (List String)) : List String :=
  match categories with
  | some c => c.filter (fun name => (verify_category table name).isSome)
  | none => []

/-- Semantics of the `FROM` clause of the base `SELECT`: without a
category filter it is the bare `torrust_torrents` table; with one it
is the `INNER JOIN` against `torrust_categories` on equal
`category_id` and validated name, projected to the `tt.*` columns
(one output row per matching pair). -/
def fromClauseRows (db : Db) (validated : List String) : List TorrentRow :=
  if validated.isEmpty then db.torrents
  else
    db.torrents.flatMap (fun tt =>
      (db.categories.filter (fun tc =>
        tc.category_id == tt.category_id && validated.contains tc.name)).map
        (fun _ => tt))

/-- Semantics of the base `SELECT` of `get_torrents`: the `FROM`
clause filtered by `title LIKE ?` with the bound search pattern. -/
def selectedRows (db : Db) (table : List String) (params : DisplayInfo) :
    List TorrentRow :=
  (fromClauseRows db (validatedCategories table params.categories)).filter
    (fun tt => sqlLike (searchPattern params) tt.title)

/-- Semantics of the count statement: the number of rows of the
wrapped subquery (`torrent_id` is non-null in every row). -/
def countSemantics (db : Db) (table : List String) (params : DisplayInfo) :
    Nat :=
  (selectedRows db table params).length

/-- The comparison the `ORDER BY` fragment denotes, for each of the
fragments `sort_query` can produce. -/
def orderLe (fragment : String) (a b : TorrentRow) : Bool :=
  match fragment with
  | "upload_date ASC" => a.upload_date ≤ b.upload_date
  | "seeders ASC" => a.seeders ≤ b.seeders
  | "seeders DESC" => b.seeders ≤ a.seeders
  | "leechers ASC" => a.leechers ≤ b.leechers
  | "leechers DESC" => b.leechers ≤ a.leechers
  | "title ASC" => !(b.title < a.title)
  | "title DESC" => !(a.title < b.title)
  | "file_size ASC" => a.file_size ≤ b.file_size
  | "file_size DESC" => b.file_size ≤ a.file_size
  | _ => b.upload_date ≤ a.upload_date

/-- Semantics of the ordered base `SELECT`: a stable sort of the
selected rows by the `ORDER BY` key. -/
def orderedRows (db : Db) (table : List String) (params : DisplayInfo) :
    List TorrentRow :=
  (selectedRows db table params).mergeSort (orderLe (sort_query params.sort))

/-- Semantics of one result page: `LIMIT offset, limit` applied to the
ordered rows, for the page and page size of the request (given here as
naturals, the in-range case of the bound `i32` values). -/
def pageRows (db : Db) (table : List String) (params : DisplayInfo)
    (page pageSize : Nat) : List TorrentRow :=
  ((orderedRows db table params).drop (page * pageSize)).take pageSize

/-! ## Metainfo model and bencode encoding

The `Torrent` struct and the `parse_torrent` codec live outside the
provided source tree (`models/torrent_file.rs`, `utils/parse_torrent.rs`);
they are modelled from the specification (sections 3 and 4.1). -/

/-- Modelled from the spec: one entry of a multi-file metainfo. -/
structure TFile where
  path : List String
  length : Int
  md5sum : Option String
deriving DecidableEq, Repr

/-- Modelled from the spec: the `info` dictionary of a metainfo.
`pieces` is a raw byte string; single-file metainfo carries `length`,
multi-file metainfo carries `files` (the struct keeps both optional,
as the handler code reads them: `info.files` and
`info.length.unwrap_or(0)`). -/
structure TorrentInfo where
  name : String
  piece_length : Int
  pieces : List Nat
  length : Option Int
  files : Option (List TFile)
deriving DecidableEq, Repr

/-- Modelled from the spec: a decoded `.torrent` metainfo. -/
structure Torrent where
  announce : Option String
  announce_list : Option (List (List String))
  info : TorrentInfo
deriving DecidableEq, Repr

/-- UTF-8 encoding of one character (scalar values only, which is all
a `Char` can hold). -/
def utf8EncodeChar (c : Char) : List Nat :=
  let n := c.toNat
  if n < 128 then [n]
  else if n < 2048 then [192 + n / 64, 128 + n % 64]
  else if n < 65536 then [224 + n / 4096, 128 + n / 64 % 64, 128 + n % 64]
  else [240 + n / 262144, 128 + n / 4096 % 64, 128 + n / 64 % 64, 128 + n % 64]

/-- UTF-8 encoding of a string as a byte list. -/
def utf8Encode (s : String) : List Nat := s.data.flatMap utf8EncodeChar

/-- Bencode of a raw byte string: decimal length, `:` (byte 58), bytes. -/
def bencodeStrBytes (bytes : List Nat) : List Nat :=
  utf8Encode (toString bytes.length) ++ [58] ++ bytes

/-- Bencode of a text string (UTF-8 encoded, then length-prefixed). -/
def bencodeStr (s : String) : List Nat := bencodeStrBytes (utf8Encode s)

/-- Bencode of an integer: `i` (105), decimal digits, `e` (101). -/
def bencodeInt (i : Int) : List Nat := 105 :: utf8Encode (toString i) ++ [101]

/-- Bencode of a list from the encodings of its items:
`l` (108), items, `e` (101). -/
def bencodeListOf (items : List (List Nat)) : List Nat :=
  108 :: items.flatten ++ [101]

/-- Modelled from the spec: canonical bencode of one `files` entry,
keys in lexicographic byte order (`length`, `md5sum`, `path`). -/
def bencodeFile (f : TFile) : List Nat :=
  100 :: bencodeStr "length" ++ bencodeInt f.length
    ++ (match f.md5sum with
        | some m => bencodeStr "md5sum" ++ bencodeStr m
        | none => [])
    ++ bencodeStr "path" ++ bencodeListOf (f.path.map bencodeStr)
    ++ [101]

/-- Modelled from the spec: canonical bencode of the `info`
dictionary, keys in lexicographic byte order
(`files`, `length`, `name`, `piece length`, `pieces`), optional keys
omitted when absent. -/
def bencodeInfo (info : TorrentInfo) : List Nat :=
  100 :: (match info.files with
          | some fs => bencodeStr "files" ++ bencodeListOf (fs.map bencodeFile)
          | none => [])
    ++ (match info.length with
        | some n => bencodeStr "length" ++ bencodeInt n
        | none => [])
    ++ bencodeStr "name" ++ bencodeStr info.name
    ++ bencodeStr "piece length" ++ bencodeInt info.piece_length
    ++ bencodeStr "pieces" ++ bencodeStrBytes info.pieces
    ++ [101]

/-- Modelled from the spec: canonical bencode of a whole metainfo,
keys in lexicographic byte order (`announce`, `announce-list`,
`info`), optional keys omitted when absent. -/
def bencodeTorrent (t : Torrent) : List Nat :=
  100 :: (match t.announce with
          | some a => bencodeStr "announce" ++ bencodeStr a
          | none => [])
    ++ (match t.announce_list with
        | some tiers =>
          bencodeStr "announce-list"
            ++ bencodeListOf (tiers.map (fun tier =>
                 bencodeListOf (tier.map bencodeStr)))
        | none => [])
    ++ bencodeStr "info" ++ bencodeInfo t.info
    ++ [101]

/-- Modelled from the spec: `info_hash = SHA1(canonical_bencode(info))`.
SHA-1 is a fixed deterministic function of its input bytes, so two
metainfos have equal hashes whenever their canonical `info` encodings
are equal; the development identifies the hash with that canonical
encoding, which preserves exactly the equalities the claims state. -/
def info_hash (t : Torrent) : List Nat := bencodeInfo t.info

/-- Modelled from the spec: `parse_torrent::encode_torrent`, the
deterministic bencode encoder (encoding a well-formed in-memory
metainfo does not fail). -/
def encode_torrent (t : Torrent) : Except Unit (List Nat) :=
  Except.ok (bencodeTorrent t)

/-- The in-place announce personalization of `download_torrent`:
set `announce` to the personal announce URL and, when `announce_list`
is present, insert the one-URL tier `[url]` at position 0. -/
def personalizeAnnounce (torrent : Torrent) (url : String) : Torrent :=
  let torrent := { torrent with announce := some url }
  match torrent.announce_list with
  | some list => { torrent with announce_list := some ([url] :: list) }
  | none => torrent

/-! ## Handler models: update, delete, download, upload

Each handler is embedded as a function of the results of the awaited
collaborator calls (authentication, id extraction, database
statements, filesystem, tracker), in the order the Rust code awaits
them, returning what the handler returns. -/

/-- An authenticated user, as the handlers read it. -/
structure User where
  username : String
  administrator : Bool
deriving DecidableEq, Repr

/-- The listing row fields the handlers read. -/
structure TorrentListing where
  torrent_id : Int
  uploader : String
deriving DecidableEq, Repr

/-- Handler `update_torrent`: authenticate, extract the id, load the listing,
reject with `Unauthorized` unless the requester is the uploader or an
administrator, then run the `UPDATE`; a database error or zero
affected rows both surface as `TorrentNotFound`. -/
def update_torrent (auth : Except ServiceError User)
    (torrentId : Except ServiceError Int)
    (getListing : Except ServiceError TorrentListing)
    (execUpdate : Except Unit Nat) : Except ServiceError Unit :=
  match auth with
  | .error e => .error e
  | .ok user =>
    match torrentId with
    | .error e => .error e
    | .ok _ =>
      match getListing with
      | .error e => .error e
      | .ok listing =>
        if listing.uploader != user.username && !user.administrator then
          .error .Unauthorized
        else
          match execUpdate with
          | .error _ => .error .TorrentNotFound
          | .ok rows =>
            if rows == 0 then .error .TorrentNotFound else .ok ()

/-- Handler `delete_torrent`: authenticate, reject non-administrators with
`Unauthorized`, extract the id, run the `DELETE`; a database error or
zero affected rows both surface as `TorrentNotFound`. -/
def delete_torrent (auth : Except ServiceError User)
    (torrentId : Except ServiceError Int)
    (execDelete : Except Unit Nat) : Except ServiceError Int :=
  match auth with
  | .error e => .error e
  | .ok user =>
    if !user.administrator then .error .Unauthorized
    else
      match torrentId with
      | .error e => .error e
      | .ok tid =>
        match execDelete with
        | .error _ => .error .TorrentNotFound
        | .ok rows =>
          if rows == 0 then .error .TorrentNotFound else .ok tid

/-- Handler `download_torrent`: extract the id, read and decode the stored
blob (failure surfaces as `InternalServerError`), then — only for an
authenticated requester — fetch the personal announce URL, personalize
the metainfo, re-encode it and return the bytes; an unauthenticated
requester receives the authentication error. -/
def download_torrent (torrentId : Except ServiceError Int)
    (auth : Except ServiceError User)
    (readTorrentFile : Except Unit Torrent)
    (personalUrl : Except ServiceError String) :
    Except ServiceError (List Nat) :=
  match torrentId with
  | .error e => .error e
  | .ok _ =>
    match readTorrentFile with
    | .error _ => .error .InternalServerError
    | .ok torrent =>
      match auth with
      | .ok _ =>
        match personalUrl with
        | .error e => .error e
        | .ok url =>
          match encode_torrent (personalizeAnnounce torrent url) with
          | .ok buffer => .ok buffer
          | .error _ => .error .InternalServerError
      | .error e => .error e

/-- The externally visible steps of `upload_torrent`, in the order
the handler performs them. -/
inductive UploadEvent where
  | parseMultipart
  | rewriteAnnounce
  | categoryLookup
  | trackerStats
  | insertRow
  | whitelist
  | saveFile
deriving DecidableEq, Repr

/-- Handler `upload_torrent` as a step trace: authenticate, parse the
multipart body, rewrite the announce section to the site tracker,
look up the category id (`InvalidCategory` when the lookup fails),
query tracker stats (best effort), insert the row returning the new
id, whitelist the info hash on the tracker (best effort), save the
encoded bytes, and return the new id.  The result pairs the list of
steps performed with the handler outcome. -/
def upload_torrent (auth : Except ServiceError User)
    (parseMultipart : Except ServiceError Unit)
    (categoryLookup : Except Unit Int)
    (insertRes : Except ServiceError Int)
    (saveRes : Except ServiceError Unit) :
    List UploadEvent × Except ServiceError Int :=
  match auth with
  | .error e => ([], .error e)
  | .ok _user =>
    match parseMultipart with
    | .error e => ([.parseMultipart], .error e)
    | .ok _ =>
      -- set_torrust_config mutates the request in place and cannot fail
      match categoryLookup with
      | .error _ =>
        ([.parseMultipart, .rewriteAnnounce, .categoryLookup],
         .error .InvalidCategory)
      | .ok _categoryId =>
        -- tracker stats: failure degrades to zero seeders/leechers
        match insertRes with
        | .error e =>
          ([.parseMultipart, .rewriteAnnounce, .categoryLookup,
            .trackerStats, .insertRow], .error e)
        | .ok torrentId =>
          -- whitelist: best effort, result discarded
          match saveRes with
          | .error e =>
            ([.parseMultipart, .rewriteAnnounce, .categoryLookup,
              .trackerStats, .insertRow, .whitelist, .saveFile], .error e)
          | .ok _ =>
            ([.parseMultipart, .rewriteAnnounce, .categoryLookup,
              .trackerStats, .insertRow, .whitelist, .saveFile],
             .ok torrentId)

/-! ## UTF-8 decoding

`std::str::from_utf8` validation, used by the multipart intake on the
text parts. -/

/-- Is this byte a UTF-8 continuation byte (`10xxxxxx`)? -/
def isUtf8Cont (b : Nat) : Bool := 128 ≤ b && b ≤ 191

/-- Decode a UTF-8 byte list into characters, rejecting (as
`std::str::from_utf8` does) truncated sequences, stray continuation
bytes, overlong forms, surrogates and values above `0x10FFFF`. -/
def utf8DecodeAux : List Nat → Option (List Char)
  | [] => some []
  | b1 :: rest =>
    if b1 ≤ 127 then
      (utf8DecodeAux rest).map (fun cs => Char.ofNat b1 :: cs)
    else
      match rest with
      | [] => none
      | b2 :: rest2 =>
        if 194 ≤ b1 && b1 ≤ 223 then
          if isUtf8Cont b2 then
            (utf8DecodeAux rest2).map
              (fun cs => Char.ofNat ((b1 - 192) * 64 + (b2 - 128)) :: cs)
          else none
        else
          match rest2 with
          | [] => none
          | b3 :: rest3 =>
            if (b1 = 224 && 160 ≤ b2 && b2 ≤ 191 && isUtf8Cont b3)
                || (225 ≤ b1 && b1 ≤ 236 && isUtf8Cont b2 && isUtf8Cont b3)
                || (b1 = 237 && 128 ≤ b2 && b2 ≤ 159 && isUtf8Cont b3)
                || (238 ≤ b1 && b1 ≤ 239 && isUtf8Cont b2 && isUtf8Cont b3)
                then
              (utf8DecodeAux rest3).map
                (fun cs =>
                  Char.ofNat ((b1 - 224) * 4096 + (b2 - 128) * 64 + (b3 - 128))
                    :: cs)
            else
              match rest3 with
              | [] => none
              | b4 :: rest4 =>
                if (b1 = 240 && 144 ≤ b2 && b2 ≤ 191 && isUtf8Cont b3
                      && isUtf8Cont b4)
                    || (241 ≤ b1 && b1 ≤ 243 && isUtf8Cont b2 && isUtf8Cont b3
                      && isUtf8Cont b4)
                    || (b1 = 244 && 128 ≤ b2 && b2 ≤ 143 && isUtf8Cont b3
                      && isUtf8Cont b4)
                    then
                  (utf8DecodeAux rest4).map
                    (fun cs =>
                      Char.ofNat ((b1 - 240) * 262144 + (b2 - 128) * 4096
                        + (b3 - 128) * 64 + (b4 - 128)) :: cs)
                else none

/-- UTF-8 decoding into a string, `none` on invalid input. -/
def utf8DecodeString (bytes : List Nat) : Option String :=
  (utf8DecodeAux bytes).map (fun cs => String.mk cs)

/-! ## Bencode decoding

Modelled from the spec: `parse_torrent::decode_torrent`, the bencode
decoder (section 4.1), is outside the provided source tree. -/

/-- A bencode value: integer, byte string, list or dictionary. -/
inductive Bencode where
  | int (i : Int)
  | str (bytes : List Nat)
  | list (items : List Bencode)
  | dict (pairs : List (List Nat × Bencode))

/-- Is this byte an ASCII digit? -/
def isDigitByte (b : Nat) : Bool := 48 ≤ b && b ≤ 57

/-- The natural number denoted by a list of ASCII digit bytes. -/
def digitsToNat (ds : List Nat) : Nat :=
  ds.foldl (fun acc d => acc * 10 + (d - 48)) 0

mutual

/-- Parse one bencode value from a byte list, returning the value and
the unconsumed remainder.  `fuel` bounds the number of parser steps
(`decode_torrent` supplies more fuel than any input can use). -/
def decodeValue : Nat → List Nat → Except Unit (Bencode × List Nat)
  | 0, _ => .error ()
  | _ + 1, [] => .error ()
  | fuel + 1, b :: rest =>
    if b = 105 then
      -- integer: optional minus sign, digits, then the byte e
      let signed := match rest with
        | 45 :: r => (true, r)
        | _ => (false, rest)
      let parts := signed.2.span isDigitByte
      if parts.1.isEmpty then .error ()
      else
        match parts.2 with
        | 101 :: r =>
          let n : Int := Int.ofNat (digitsToNat parts.1)
          .ok (.int (if signed.1 then -n else n), r)
        | _ => .error ()
    else if b = 108 then
      match decodeItems fuel rest with
      | .ok (items, r) => .ok (.list items, r)
      | .error e => .error e
    else if b = 100 then
      match decodePairs fuel rest with
      | .ok (pairs, r) => .ok (.dict pairs, r)
      | .error e => .error e
    else if isDigitByte b then
      -- byte string: decimal length, the byte :, that many bytes
      let parts := (b :: rest).span isDigitByte
      match parts.2 with
      | 58 :: r =>
        let len := digitsToNat parts.1
        if r.length < len then .error ()
        else .ok (.str (r.take len), r.drop len)
      | _ => .error ()
    else .error ()

/-- Parse bencode list items up to the closing `e`. -/
def decodeItems : Nat → List Nat → Except Unit (List Bencode × List Nat)
  | 0, _ => .error ()
  | _ + 1, [] => .error ()
  | fuel + 1, b :: rest =>
    if b = 101 then .ok ([], rest)
    else
      match decodeValue fuel (b :: rest) with
      | .error e => .error e
      | .ok (v, r) =>
        match decodeItems fuel r with
        | .error e => .error e
        | .ok (vs, r2) => .ok (v :: vs, r2)

/-- Parse bencode dictionary pairs (byte-string key, then value) up to
the closing `e`. -/
def decodePairs :
    Nat → List Nat → Except Unit (List (List Nat × Bencode) × List Nat)
  | 0, _ => .error ()
  | _ + 1, [] => .error ()
  | fuel + 1, b :: rest =>
    if b = 101 then .ok ([], rest)
    else
      match decodeValue fuel (b :: rest) with
      | .error e => .error e
      | .ok (.str key, r) =>
        match decodeValue fuel r with
        | .error e => .error e
        | .ok (v, r2) =>
          match decodePairs fuel r2 with
          | .error e => .error e
          | .ok (ps, r3) => .ok ((key, v) :: ps, r3)
      | .ok _ => .error ()

end

/-- Look a text key up in decoded dictionary pairs. -/
def dictLookup (pairs : List (List Nat × Bencode)) (key : String) :
    Option Bencode :=
  (pairs.find? (fun kv => kv.1 == utf8Encode key)).map (fun kv => kv.2)

/-- View a bencode value as a byte string. -/
def asStr : Bencode → Option (List Nat)
  | .str s => some s
  | _ => none

/-- View a bencode value as an integer. -/
def asInt : Bencode → Option Int
  | .int i => some i
  | _ => none

/-- View a bencode value as a list. -/
def asList : Bencode → Option (List Bencode)
  | .list l => some l
  | _ => none

/-- View a bencode value as UTF-8 text. -/
def asText (b : Bencode) : Option String := asStr b >>= utf8DecodeString

/-- Read an optional dictionary field: absence is fine, presence must
parse with `f`. -/
def optField (pairs : List (List Nat × Bencode)) (key : String)
    (f : Bencode → Option α) : Option (Option α) :=
  match dictLookup pairs key with
  | none => some none
  | some v => (f v).map some

/-- Build one `files` entry from its bencode dictionary. -/
def bencodeToFile (b : Bencode) : Option TFile :=
  match b with
  | .dict d => do
    let length ← dictLookup d "length" >>= asInt
    let md5sum ← optField d "md5sum" asText
    let pathItems ← dictLookup d "path" >>= asList
    let path ← pathItems.mapM asText
    some { path := path, length := length, md5sum := md5sum }
  | _ => none

/-- Build the `info` dictionary from its bencode value. -/
def bencodeToInfo (b : Bencode) : Option TorrentInfo :=
  match b with
  | .dict d => do
    let name ← dictLookup d "name" >>= asText
    let piece_length ← dictLookup d "piece length" >>= asInt
    let pieces ← dictLookup d "pieces" >>= asStr
    let length ← optField d "length" asInt
    let files ← optField d "files"
      (fun v => asList v >>= fun items => items.mapM bencodeToFile)
    some { name := name, piece_length := piece_length, pieces := pieces,
           length := length, files := files }
  | _ => none

/-- Build a metainfo from its decoded bencode value. -/
def bencodeToTorrent (b : Bencode) : Option Torrent :=
  match b with
  | .dict d => do
    let announce ← optField d "announce" asText
    let announce_list ← optField d "announce-list"
      (fun v => asList v >>= fun tiers =>
        tiers.mapM (fun tier => asList tier >>= fun urls => urls.mapM asText))
    let info ← dictLookup d "info" >>= bencodeToInfo
    some { announce := announce, announce_list := announce_list, info := info }
  | _ => none

/-- Modelled from the spec: `parse_torrent::decode_torrent` — parse
the byte buffer as bencode (consuming it entirely) and build the
metainfo; any failure is a parse failure. -/
def decode_torrent (bytes : List Nat) : Except Unit Torrent :=
  match decodeValue (2 * bytes.length + 4) bytes with
  | .ok (v, []) =>
    match bencodeToTorrent v with
    | some t => .ok t
    | none => .error ()
  | _ => .error ()

/-! ## Multipart intake (`get_torrent_request_from_payload`) -/

/-- The `CreateTorrent` field struct of the upload request. -/
structure CreateTorrent where
  title : String
  description : String
  category : String
deriving DecidableEq, Repr

/-- Rust `CreateTorrent::verify`: title and category must be non-empty. -/
def CreateTorrent.verify (f : CreateTorrent) : Except ServiceError Unit :=
  if !(f.title == "") && !(f.category == "") then .ok () else .error .BadRequest

/-- The transient upload request: the text fields plus the decoded
metainfo. -/
structure TorrentRequest where
  fields : CreateTorrent
  torrent : Torrent
deriving DecidableEq, Repr

/-- One multipart field as the intake loop observes it:
`disposition` is the result of `content_disposition()` (outer
`Option`) holding the result of `get_name()` (inner `Option`);
`contentType` the declared content type; `chunks` the streamed body
chunks, each an `Ok` byte chunk or a stream error. -/
structure MultipartField where
  disposition : Option (Option String)
  contentType : Option String
  chunks : List (Except Unit (List Nat))

/-- The outcome of code that can also panic: `ok`, a returned service
error, or a Rust panic (an `unwrap` of `None`/`Err`). -/
inductive IntakeOutcome (α : Type) where
  | ok (a : α)
  | err (e : ServiceError)
  | panicked

/-- Accumulate the chunks of a `torrent` part, panicking (as
`chunk.unwrap()` does) on a stream error. -/
def collectChunks : List (Except Unit (List Nat)) → Option (List Nat)
  | [] => some []
  | .ok data :: rest => (collectChunks rest).map (fun tl => data ++ tl)
  | .error _ :: _ => none

/-- The `while let Ok(Some(field))` loop of
`get_torrent_request_from_payload`.  A stream-level error ends the
loop (the `while let` pattern fails to match).  For each field:
`content_disposition().unwrap()` and `get_name().unwrap()` panic when
absent; a text part (`title`/`description`/`category`) reads only its
first chunk — absence skips the part, a chunk error or invalid UTF-8
panics (`data.unwrap().unwrap()`, `from_utf8(..).unwrap()`); a
`torrent` part first requires content type
`application/x-bittorrent` (else `InvalidFileType`), then appends all
its chunks to the buffer; parts with other names are ignored.  The
buffer models the cursor slice `inner[..position]`, i.e. exactly the
bytes written. -/
def intakeLoop : List (Except Unit MultipartField) →
    String → String → String → List Nat →
    IntakeOutcome (String × String × String × List Nat)
  | [], title, description, category, buffer =>
    .ok (title, description, category, buffer)
  | .error _ :: _, title, description, category, buffer =>
    .ok (title, description, category, buffer)
  | .ok field :: rest, title, description, category, buffer =>
    match field.disposition with
    | none => .panicked
    | some nameOpt =>
      match nameOpt with
      | none => .panicked
      | some name =>
        if name == "title" || name == "description" || name == "category" then
          match field.chunks.head? with
          | none => intakeLoop rest title description category buffer
          | some (.error _) => .panicked
          | some (.ok data) =>
            match utf8DecodeString data with
            | none => .panicked
            | some parsed =>
              if name == "title" then
                intakeLoop rest parsed description category buffer
              else if name == "description" then
                intakeLoop rest title parsed category buffer
              else
                intakeLoop rest title description parsed buffer
        else if name == "torrent" then
          if field.contentType != some "application/x-bittorrent" then
            .err .InvalidFileType
          else
            match collectChunks field.chunks with
            | none => .panicked
            | some data =>
              intakeLoop rest title description category (buffer ++ data)
        else intakeLoop rest title description category buffer

/-- Function `get_torrent_request_from_payload`: run the intake loop, verify
the fields (`BadRequest` on empty title or category), then decode the
accumulated buffer (`InvalidTorrentFile` on parse failure). -/
def get_torrent_request_from_payload
    (payload : List (Except Unit MultipartField)) :
    IntakeOutcome TorrentRequest :=
  match intakeLoop payload "" "" "" [] with
  | .panicked => .panicked
  | .err e => .err e
  | .ok (title, description, category, buffer) =>
    let fields : CreateTorrent :=
      { title := title, description := description, category := category }
    match fields.verify with
    | .error e => .err e
    | .ok _ =>
      match decode_torrent buffer with
      | .ok torrent => .ok { fields := fields, torrent := torrent }
      | .error _ => .err .InvalidTorrentFile

/-! ## Decidable equality helpers and concrete sample data -/

instance {ε α : Type} [DecidableEq ε] [DecidableEq α] :
    DecidableEq (Except ε α) := fun x y =>
  match x, y with
  | .ok a, .ok b =>
    if h : a = b then .isTrue (by rw [h])
    else .isFalse (by intro hc; cases hc; exact h rfl)
  | .error a, .error b =>
    if h : a = b then .isTrue (by rw [h])
    else .isFalse (by intro hc; cases hc; exact h rfl)
  | .ok _, .error _ => .isFalse (by intro hc; cases hc)
  | .error _, .ok _ => .isFalse (by intro hc; cases hc)

instance {α : Type} [DecidableEq α] : DecidableEq (IntakeOutcome α) :=
  fun x y =>
  match x, y with
  | .ok a, .ok b =>
    if h : a = b then .isTrue (by rw [h])
    else .isFalse (by intro hc; cases hc; exact h rfl)
  | .err a, .err b =>
    if h : a = b then .isTrue (by rw [h])
    else .isFalse (by intro hc; cases hc; exact h rfl)
  | .panicked, .panicked => .isTrue rfl
  | .ok _, .err _ => .isFalse (by intro hc; cases hc)
  | .ok _, .panicked => .isFalse (by intro hc; cases hc)
  | .err _, .ok _ => .isFalse (by intro hc; cases hc)
  | .err _, .panicked => .isFalse (by intro hc; cases hc)
  | .panicked, .ok _ => .isFalse (by intro hc; cases hc)
  | .panicked, .err _ => .isFalse (by intro hc; cases hc)

/-- OR-join of predicate strings, the closed form of the filter
string the accumulation loop of `get_torrents` builds. -/
def orJoin : List String → String
  | [] => ""
  | [s] => s
  | s :: rest@(_ :: _) => s ++ " OR " ++ orJoin rest

/-- The textbook SQL-injection payload of the specification:
`x' OR 1=1 --`. -/
def injectionPayload : String := "x" ++ squote ++ " OR 1=1 --"

/-- A small concrete category table. -/
def demoTable : List String := ["movie", "music", "app"]

/-- A concrete non-administrator user. -/
def aliceUser : User := { username := "alice", administrator := false }

/-- A concrete administrator. -/
def adminUser : User := { username := "root", administrator := true }

/-- The canonical bencoding of a small single-file metainfo, used as
concrete upload content. -/
def sampleTorrentBytes : List Nat :=
  utf8Encode "d4:infod6:lengthi12345e4:name5:bunny12:piece lengthi16384e6:pieces20:"
    ++ List.replicate 20 0 ++ utf8Encode "ee"

/-- The metainfo `sampleTorrentBytes` denotes. -/
def sampleTorrent : Torrent :=
  { announce := none, announce_list := none,
    info := { name := "bunny", piece_length := 16384,
              pieces := List.replicate 20 0, length := some 12345,
              files := none } }

/-- A well-formed multipart upload payload: title, category and a
torrent part carrying `sampleTorrentBytes`. -/
def goodPayload : List (Except Unit MultipartField) :=
  [ .ok { disposition := some (some "title"), contentType := none,
          chunks := [.ok (utf8Encode "bunny")] },
    .ok { disposition := some (some "category"), contentType := none,
          chunks := [.ok (utf8Encode "movie")] },
    .ok { disposition := some (some "torrent"),
          contentType := some "application/x-bittorrent",
          chunks := [.ok sampleTorrentBytes] } ]

/-- A small concrete database for evaluating the listing semantics. -/
def demoDb : Db :=
  { torrents :=
      [ { torrent_id := 1, uploader := "alice", title := "big bunny",
          category_id := 1, upload_date := 10, file_size := 100,
          seeders := 1, leechers := 2 },
        { torrent_id := 2, uploader := "bob", title := "small bunny",
          category_id := 2, upload_date := 20, file_size := 200,
          seeders := 3, leechers := 4 } ],
    categories := [ { category_id := 1, name := "movie" },
                    { category_id := 2, name := "music" },
                    { category_id := 3, name := "app" } ] }

/-- The empty listing request (every query parameter absent). -/
def emptyParams : DisplayInfo :=
  { page_size := none, page := none, sort := none, categories := none,
    search := none }

/-- Total byte count of the chunks delivered for `torrent` parts of a
payload (the quantity an upload size limit would have to bound). -/
def torrentPartsSize (payload : List (Except Unit MultipartField)) : Nat :=
  (payload.map (fun p =>
    match p with
    | .ok f =>
      if f.disposition = some (some "torrent") then
        (f.chunks.map (fun c =>
          match c with
          | .ok data => data.length
          | .error _ => 0)).sum
      else 0
    | .error _ => 0)).sum

/-- Claim C5 as stated: some configured maximum size exists such that
every payload whose torrent part exceeds it fails with
`InvalidTorrentFile`. -/
def sizeBoundClaim : Prop :=
  ∃ maxSize : Nat, ∀ payload : List (Except Unit MultipartField),
    maxSize < torrentPartsSize payload →
    get_torrent_request_from_payload payload = .err .InvalidTorrentFile

/-- Claim C9 as stated: beyond the defaults, `page` must be
non-negative and `page_size` positive and capped at a fixed maximum. -/
def pagingValidationClaim : Prop :=
  effectivePage emptyParams = 0 ∧
  effectivePageSize emptyParams = 30 ∧
  (∀ p : DisplayInfo, 0 ≤ effectivePage p ∧ 0 < effectivePageSize p) ∧
  (∃ cap : Int, ∀ p : DisplayInfo, effectivePageSize p ≤ cap)

/-! ## Theorems -/

/-- Names failing `verify_category` leave the filter accumulation
unchanged: the loop output only depends on the names present in the
category table. -/
theorem categoryFiltersAux_filter (table : List String) :
    ∀ (cats : List String) (i : Nat) (acc : String),
      categoryFiltersAux table cats i acc =
        categoryFiltersAux table (cats.filter (fun c => table.contains c))
          i acc := by
  intro cats
  induction cats with
  | nil => intro i acc; rfl
  | cons c rest ih =>
    intro i acc
    by_cases h : table.contains c = true
    · have hm : c ∈ table := by
        simpa using h
      have hv : verify_category table c = some c := by
        simp [verify_category, hm]
      simp only [categoryFiltersAux, hv, List.filter_cons, h, if_pos, ite_true]
      exact ih (i + 1) _
    · have hm : c ∉ table := by
        simpa using h
      have hv : verify_category table c = none := by
        simp [verify_category, hm]
      have h2 : table.contains c = false := by
        simpa using h
      simp only [categoryFiltersAux, hv, List.filter_cons, h2,
        Bool.false_eq_true, if_neg, ite_false]
      exact ih i acc

/-- Closed form of the filter accumulation loop: the validated
literals joined by `" OR "`, appended to the accumulator, with a
leading `" OR "` when predicates were already emitted. -/
theorem categoryFiltersAux_closed (table : List String) :
    ∀ (cats : List String) (i : Nat) (acc : String),
      categoryFiltersAux table cats i acc =
        (if (cats.filter (fun c => table.contains c)).isEmpty then acc
         else acc ++ (if i > 0 then " OR " else "")
           ++ orJoin ((cats.filter (fun c => table.contains c)).map
               categoryLiteral)) := by
  intro cats
  induction cats with
  | nil => intro i acc; rfl
  | cons c rest ih =>
    intro i acc
    by_cases h : table.contains c = true
    · have hm : c ∈ table := by
        simpa using h
      have hv : verify_category table c = some c := by
        simp [verify_category, hm]
      simp only [categoryFiltersAux, hv, List.filter_cons, h, if_pos, ite_true,
        List.isEmpty_cons, List.map_cons]
      rw [ih]
      rcases hr : rest.filter (fun x => table.contains x) with _ | ⟨d, ds⟩
      · rcases i with _ | j <;>
          · apply String.ext
            simp [hr, orJoin, String.data_append]
      · rcases i with _ | j <;>
          · apply String.ext
            simp [hr, orJoin, String.data_append]
    · have hm : c ∉ table := by
        simpa using h
      have hv : verify_category table c = none := by
        simp [verify_category, hm]
      have h2 : table.contains c = false := by
        simpa using h
      simp only [categoryFiltersAux, hv, List.filter_cons, h2,
        Bool.false_eq_true, if_neg, ite_false]
      exact ih i acc

/-- An OR-join that starts with a category literal is non-empty. -/
theorem orJoin_lit_length_pos (x : String) (xs : List String) :
    0 < (orJoin (categoryLiteral x :: xs)).length := by
  have h1 : ("tc.name = " : String).length = 10 := rfl
  have h2 : squote.length = 1 := rfl
  rcases xs with _ | ⟨y, ys⟩ <;>
    simp [orJoin, categoryLiteral, String.length_append, h1, h2]

/-- Closed form of `category_filter_query`: empty unless some supplied
name validates, otherwise the `INNER JOIN` clause over the OR-joined
validated literals. -/
theorem category_filter_query_closed (table cats : List String) :
    category_filter_query table (some cats) =
      (if (cats.filter (fun c => table.contains c)).isEmpty then ""
       else
         "INNER JOIN torrust_categories tc ON tt.category_id = tc.category_id AND ("
           ++ orJoin ((cats.filter (fun c => table.contains c)).map
               categoryLiteral) ++ ")") := by
  show (let category_filters := categoryFiltersAux table cats 0 ""
        if category_filters.length > 0 then
          "INNER JOIN torrust_categories tc ON tt.category_id = tc.category_id AND ("
            ++ category_filters ++ ")"
        else "") = _
  rw [categoryFiltersAux_closed]
  rcases hr : cats.filter (fun c => table.contains c) with _ | ⟨d, ds⟩
  · simp
  · have hsimpl :
        ("" ++ (if (0 : Nat) > 0 then " OR " else "")
          ++ orJoin ((d :: ds).map categoryLiteral))
          = orJoin ((d :: ds).map categoryLiteral) := by
      apply String.ext
      simp [String.data_append]
    have hpos := orJoin_lit_length_pos d (ds.map categoryLiteral)
    simp [hsimpl, hpos]

/-- Concatenating consecutive `LIMIT k * ps, ps` windows of a list
reconstructs its `n * ps`-prefix. -/
theorem flatMap_range_pages {α : Type} (l : List α) (ps : Nat) :
    ∀ n : Nat,
      (List.range n).flatMap (fun k => (l.drop (k * ps)).take ps)
        = l.take (n * ps) := by
  intro n
  induction n with
  | zero => simp
  | succ m ih =>
    rw [List.range_succ, List.flatMap_append, ih, Nat.succ_mul,
      List.take_add]
    simp

/-- Accumulating error-free chunks yields their concatenation. -/
theorem collectChunks_map_ok :
    ∀ (cs : List (List Nat)),
      collectChunks (cs.map Except.ok) = some cs.flatten := by
  intro cs
  induction cs with
  | nil => rfl
  | cons c rest ih => simp [collectChunks, ih]

/-- Claim C1: for every listing request, a user-supplied category name
that is not in the category table contributes nothing to the issued
SQL: the filter clause is invariant under dropping non-table names;
validated names appear as single-quoted literals joined by OR inside
the INNER JOIN predicate; the SQL text of both issued statements is a
function of the categories (and sort key) alone, while the search
pattern, offset and limit appear only in the bound-parameter lists;
and in particular the injection payload, absent from the table, leaves
the query identical to the one built without it. -/
theorem C1_category_safety :
    (∀ (table cats : List String),
      category_filter_query table (some cats) =
        category_filter_query table
          (some (cats.filter (fun c => table.contains c)))) ∧
    (∀ (table cats : List String),
      category_filter_query table (some cats) =
        (if (cats.filter (fun c => table.contains c)).isEmpty then ""
         else
           "INNER JOIN torrust_categories tc ON tt.category_id = tc.category_id AND ("
             ++ orJoin ((cats.filter (fun c => table.contains c)).map
                 categoryLiteral) ++ ")")) ∧
    (∀ (table : List String) (ps pg : Option Int) (srt : Option String)
        (cats : Option (List String)) (s : Option String),
      rowsQuery table ⟨ps, pg, srt, cats, s⟩ =
        { sql := "SELECT tt.* FROM torrust_torrents tt "
            ++ category_filter_query table cats ++ " WHERE title LIKE ?"
            ++ " ORDER BY " ++ sort_query srt ++ " LIMIT ?, ?",
          binds := [.str (match s with
                          | none => "%"
                          | some v => "%" ++ v ++ "%"),
                    .int (wrap32 (pg.getD 0 * ps.getD 30)),
                    .int (ps.getD 30)] }) ∧
    (∀ (table : List String) (ps pg : Option Int) (srt : Option String)
        (cats : Option (List String)) (s : Option String),
      countQuery table ⟨ps, pg, srt, cats, s⟩ =
        { sql := "SELECT COUNT(torrent_id) as count FROM ("
            ++ ("SELECT tt.* FROM torrust_torrents tt "
              ++ category_filter_query table cats ++ " WHERE title LIKE ?")
            ++ ")",
          binds := [.str (match s with
                          | none => "%"
                          | some v => "%" ++ v ++ "%")] }) ∧
    (category_filter_query demoTable (some ["movie", injectionPayload]) =
        category_filter_query demoTable (some ["movie"]) ∧
      category_filter_query demoTable (some ["movie", injectionPayload]) =
        "INNER JOIN torrust_categories tc ON tt.category_id = tc.category_id AND (tc.name = "
          ++ squote ++ "movie" ++ squote ++ ")") := by
  refine ⟨?_, ?_, ?_, ?_, by decide, by decide⟩
  · intro table cats
    simp only [category_filter_query]
    rw [categoryFiltersAux_filter]
  · intro table cats
    exact category_filter_query_closed table cats
  · intro table ps pg srt cats s
    cases s <;> rfl
  · intro table ps pg srt cats s
    cases s <;> rfl

/-- Claim C2: the count statement of a listing request wraps exactly
the SQL of the result statement as a subquery and binds the same
search pattern, and under the relational semantics the reported total
equals the number of rows obtained by paging through all results with
the same filters: with enough pages the concatenation of the pages is
the full ordered result and its length is the count. -/
theorem C2_count_agreement :
    (∀ (table : List String) (params : DisplayInfo),
      (countQuery table params).sql =
        "SELECT COUNT(torrent_id) as count FROM ("
          ++ baseQueryString table params ++ ")" ∧
      (countQuery table params).binds = [.str (searchPattern params)] ∧
      (rowsQuery table params).binds.head? =
        some (.str (searchPattern params))) ∧
    (∀ (db : Db) (table : List String) (params : DisplayInfo)
        (n pageSize : Nat),
      countSemantics db table params ≤ n * pageSize →
      ((List.range n).flatMap (fun k => pageRows db table params k pageSize))
          = orderedRows db table params ∧
      ((List.range n).flatMap
          (fun k => pageRows db table params k pageSize)).length
          = countSemantics db table params) := by
  constructor
  · intro table params
    exact ⟨rfl, rfl, rfl⟩
  · intro db table params n ps hle
    have hlen : (orderedRows db table params).length
        = countSemantics db table params := by
      simp [orderedRows, countSemantics, List.length_mergeSort]
    have hjoin :
        (List.range n).flatMap (fun k => pageRows db table params k ps)
          = orderedRows db table params := by
      simp only [pageRows]
      rw [flatMap_range_pages]
      exact List.take_of_length_le (by rw [hlen]; exact hle)
    exact ⟨hjoin, by rw [hjoin, hlen]⟩

/-- Witness for C2 at a concrete database and request: two rows,
default parameters, one page of thirty. -/
theorem C2_count_agreement_witness :
    countSemantics demoDb demoTable emptyParams ≤ 1 * 30 ∧
    ((List.range 1).flatMap
        (fun k => pageRows demoDb demoTable emptyParams k 30)).length
      = countSemantics demoDb demoTable emptyParams :=
  ⟨by decide,
   (C2_count_agreement.2 demoDb demoTable emptyParams 1 30 (by decide)).2⟩

/-- Counterexample to claim C3 as stated: on a fully successful
upload, the handler trace places the tracker whitelist call before the
file save, not after it — the claimed order (save, then whitelist)
fails at this concrete run. -/
theorem C3_upload_order_counterexample :
    (upload_torrent (.ok aliceUser) (.ok ()) (.ok 1) (.ok 5) (.ok ())).1 =
      [.parseMultipart, .rewriteAnnounce, .categoryLookup, .trackerStats,
       .insertRow, .whitelist, .saveFile] ∧
    ¬ ((upload_torrent (.ok aliceUser) (.ok ()) (.ok 1) (.ok 5) (.ok ())).1.indexOf
          UploadEvent.saveFile <
        (upload_torrent (.ok aliceUser) (.ok ()) (.ok 1) (.ok 5) (.ok ())).1.indexOf
          UploadEvent.whitelist) := by
  decide

/-- Claim C3 as amended: on a fully successful upload the handler
performs parse multipart, rewrite announce, category lookup, tracker
stats, insert row, tracker whitelist (best effort), and only then the
file save, before returning the new torrent id. -/
theorem C3_upload_order_amended (u : User) (cid tid : Int) :
    upload_torrent (.ok u) (.ok ()) (.ok cid) (.ok tid) (.ok ()) =
      ([.parseMultipart, .rewriteAnnounce, .categoryLookup, .trackerStats,
        .insertRow, .whitelist, .saveFile], .ok tid) := rfl

/-- Counterexample to claim C4 as stated: a failing database statement
on update and on delete surfaces as TorrentNotFound, not as the
claimed InternalServerError, already at this concrete authorized
request. -/
theorem C4_error_mapping_counterexample :
    update_torrent (.ok adminUser) (.ok 5)
        (.ok { torrent_id := 5, uploader := "alice" }) (.error ()) =
      .error .TorrentNotFound ∧
    update_torrent (.ok adminUser) (.ok 5)
        (.ok { torrent_id := 5, uploader := "alice" }) (.error ()) ≠
      .error .InternalServerError ∧
    delete_torrent (.ok adminUser) (.ok 5) (.error ()) =
      .error .TorrentNotFound ∧
    delete_torrent (.ok adminUser) (.ok 5) (.error ()) ≠
      .error .InternalServerError := by
  decide

/-- Claim C4 as amended: on update and on delete, for an authorized
requester, both a database error and a statement that succeeds but
affects zero rows surface as TorrentNotFound, while a statement
affecting at least one row succeeds. -/
theorem C4_error_mapping_amended :
    (∀ (u : User) (tid : Int) (listing : TorrentListing),
      (u.username = listing.uploader ∨ u.administrator = true) →
      update_torrent (.ok u) (.ok tid) (.ok listing) (.error ()) =
        .error .TorrentNotFound ∧
      update_torrent (.ok u) (.ok tid) (.ok listing) (.ok 0) =
        .error .TorrentNotFound ∧
      (∀ rows : Nat, rows ≠ 0 →
        update_torrent (.ok u) (.ok tid) (.ok listing) (.ok rows) = .ok ())) ∧
    (∀ (u : User) (tid : Int), u.administrator = true →
      delete_torrent (.ok u) (.ok tid) (.error ()) = .error .TorrentNotFound ∧
      delete_torrent (.ok u) (.ok tid) (.ok 0) = .error .TorrentNotFound ∧
      (∀ rows : Nat, rows ≠ 0 →
        delete_torrent (.ok u) (.ok tid) (.ok rows) = .ok tid)) := by
  constructor
  · intro u tid listing h
    have hcond : (listing.uploader != u.username && !u.administrator)
        = false := by
      rcases h with h | h
      · simp [h.symm]
      · simp [h]
    refine ⟨by simp [update_torrent, hcond], by simp [update_torrent, hcond],
      fun rows hr => by simp [update_torrent, hcond, hr]⟩
  · intro u tid h
    refine ⟨by simp [delete_torrent, h], by simp [delete_torrent, h],
      fun rows hr => by simp [delete_torrent, h, hr]⟩

/-- Witness for the amended C4 at concrete requests: an administrator
update against a failing statement yields TorrentNotFound, and an
administrator delete affecting one row succeeds. -/
theorem C4_error_mapping_witness :
    update_torrent (.ok adminUser) (.ok 5)
      (.ok { torrent_id := 5, uploader := "alice" }) (.error ()) =
        .error .TorrentNotFound ∧
    delete_torrent (.ok adminUser) (.ok 7) (.ok 1) = .ok 7 :=
  ⟨(C4_error_mapping_amended.1 adminUser 5
      { torrent_id := 5, uploader := "alice" } (Or.inr rfl)).1,
   (C4_error_mapping_amended.2 adminUser 7 rfl).2.2 1 (by decide)⟩

/-- Counterexample to claim C5 as stated: no maximum size bounds the
torrent-part buffer — for every candidate bound there is a payload
whose torrent part exceeds it and whose intake does not fail with
InvalidTorrentFile. -/
theorem C5_size_bound_counterexample : ¬ sizeBoundClaim := by
  rintro ⟨maxSize, h⟩
  have hbig := h
    [ .ok { disposition := some (some "torrent"),
            contentType := some "application/x-bittorrent",
            chunks := [.ok (List.replicate (maxSize + 1) 0)] } ]
    (by simp [torrentPartsSize])
  have heval : get_torrent_request_from_payload
      [ .ok { disposition := some (some "torrent"),
              contentType := some "application/x-bittorrent",
              chunks := [.ok (List.replicate (maxSize + 1) 0)] } ]
        = .err .BadRequest := by
    simp [get_torrent_request_from_payload, intakeLoop, collectChunks,
      CreateTorrent.verify]
  rw [heval] at hbig
  exact absurd hbig (by decide)

/-- Claim C5 as amended: the torrent part is accumulated into an
in-memory buffer with no maximum-size check — the whole part enters
the buffer whatever its size, and on a well-delivered upload payload
the intake outcome is determined solely by field verification and by
bencode decoding of the full accumulated bytes, InvalidTorrentFile
arising only from a decode failure. -/
theorem C5_intake_unbounded_amended (tb db2 cb : List Nat) (t d c : String)
    (chunks : List (List Nat))
    (htb : utf8DecodeString tb = some t)
    (hdb : utf8DecodeString db2 = some d)
    (hcb : utf8DecodeString cb = some c) :
    get_torrent_request_from_payload
      [ .ok { disposition := some (some "title"), contentType := none,
              chunks := [.ok tb] },
        .ok { disposition := some (some "description"), contentType := none,
              chunks := [.ok db2] },
        .ok { disposition := some (some "category"), contentType := none,
              chunks := [.ok cb] },
        .ok { disposition := some (some "torrent"),
              contentType := some "application/x-bittorrent",
              chunks := chunks.map Except.ok } ] =
      (if !(t == "") && !(c == "") then
        match decode_torrent chunks.flatten with
        | .ok torrent =>
          .ok { fields := { title := t, description := d, category := c },
                torrent := torrent }
        | .error _ => .err .InvalidTorrentFile
      else .err .BadRequest) := by
  by_cases hP : ¬t = "" ∧ ¬c = ""
  · simp [get_torrent_request_from_payload, intakeLoop, htb, hdb, hcb,
      collectChunks_map_ok, CreateTorrent.verify, hP]
  · simp [get_torrent_request_from_payload, intakeLoop, htb, hdb, hcb,
      collectChunks_map_ok, CreateTorrent.verify, hP]

/-- Witness for the amended C5 at a concrete upload payload carrying a
valid single-file metainfo: intake succeeds with the decoded torrent. -/
theorem C5_intake_unbounded_witness :
    get_torrent_request_from_payload
      [ .ok { disposition := some (some "title"), contentType := none,
              chunks := [.ok (utf8Encode "bunny")] },
        .ok { disposition := some (some "description"), contentType := none,
              chunks := [.ok (utf8Encode "desc")] },
        .ok { disposition := some (some "category"), contentType := none,
              chunks := [.ok (utf8Encode "movie")] },
        .ok { disposition := some (some "torrent"),
              contentType := some "application/x-bittorrent",
              chunks := [sampleTorrentBytes].map Except.ok } ] =
      .ok { fields := { title := "bunny", description := "desc",
                        category := "movie" },
            torrent := sampleTorrent } :=
  (C5_intake_unbounded_amended (utf8Encode "bunny") (utf8Encode "desc")
      (utf8Encode "movie") "bunny" "desc" "movie" [sampleTorrentBytes]
      (by decide) (by decide) (by decide)).trans (by decide)

/-- Claim C6: the authorization matrix of the handlers — with the id
extraction, listing load and statement execution succeeding, an update
succeeds exactly when the requester is the uploader or an
administrator (and a requester who is neither receives Unauthorized,
while an unauthenticated request never succeeds); a delete succeeds
exactly when the requester is an administrator (a non-administrator
receives Unauthorized); a download with readable blob and available
personal announce URL succeeds exactly when the requester is
authenticated. -/
theorem C6_authorization_matrix :
    (∀ (u : User) (tid : Int) (listing : TorrentListing) (rows : Nat),
      rows ≠ 0 →
      ((update_torrent (.ok u) (.ok tid) (.ok listing) (.ok rows)).isOk
          = true ↔
        (u.username = listing.uploader ∨ u.administrator = true))) ∧
    (∀ (e : ServiceError) (tid : Int) (listing : TorrentListing)
        (exec : Except Unit Nat),
      (update_torrent (.error e) (.ok tid) (.ok listing) exec).isOk
        = false) ∧
    (∀ (u : User) (tid : Int) (listing : TorrentListing)
        (exec : Except Unit Nat),
      ¬ (u.username = listing.uploader ∨ u.administrator = true) →
      update_torrent (.ok u) (.ok tid) (.ok listing) exec =
        .error .Unauthorized) ∧
    (∀ (u : User) (tid : Int) (rows : Nat),
      rows ≠ 0 →
      ((delete_torrent (.ok u) (.ok tid) (.ok rows)).isOk = true ↔
        u.administrator = true)) ∧
    (∀ (e : ServiceError) (tid : Int) (exec : Except Unit Nat),
      (delete_torrent (.error e) (.ok tid) exec).isOk = false) ∧
    (∀ (u : User) (tid : Int) (exec : Except Unit Nat),
      u.administrator = false →
      delete_torrent (.ok u) (.ok tid) exec = .error .Unauthorized) ∧
    (∀ (auth : Except ServiceError User) (tid : Int) (torrent : Torrent)
        (url : String),
      ((download_torrent (.ok tid) auth (.ok torrent) (.ok url)).isOk
          = true ↔ ∃ u, auth = .ok u)) := by
  refine ⟨?_, ?_, ?_, ?_, ?_, ?_, ?_⟩
  · intro u tid listing rows hrows
    simp only [update_torrent]
    split
    · next hcond =>
      simp only [Bool.and_eq_true, bne_iff_ne, ne_eq, Bool.not_eq_true']
        at hcond
      simp only [Except.isOk, Except.toBool, Bool.false_eq_true, false_iff,
        not_or]
      exact ⟨fun h => hcond.1 h.symm, by simp [hcond.2]⟩
    · next hcond =>
      simp only [Bool.and_eq_true, bne_iff_ne, ne_eq, Bool.not_eq_true',
        not_and, Bool.not_eq_false] at hcond
      simp only [beq_iff_eq, hrows, if_neg, Except.isOk, Except.toBool]
      by_cases hu : listing.uploader = u.username
      · simp [hu]
      · simp [hrows]
        exact Or.inr (hcond hu)
  · intro e tid listing exec
    simp [update_torrent, Except.isOk, Except.toBool]
  · intro u tid listing exec h
    push_neg at h
    obtain ⟨h1, h2⟩ := h
    simp only [update_torrent]
    rw [if_pos]
    simp only [Bool.and_eq_true, bne_iff_ne, ne_eq, Bool.not_eq_true']
    exact ⟨fun hc => h1 hc.symm, by simpa using h2⟩
  · intro u tid rows hrows
    simp only [delete_torrent]
    by_cases hadm : u.administrator
    · simp [hadm, hrows, Except.isOk, Except.toBool]
    · simp [hadm, Except.isOk, Except.toBool]
  · intro e tid exec
    simp [delete_torrent, Except.isOk, Except.toBool]
  · intro u tid exec hadm
    simp [delete_torrent, hadm]
  · intro auth tid torrent url
    cases auth with
    | ok u =>
      simp [download_torrent, encode_torrent, Except.isOk, Except.toBool]
    | error e =>
      simp [download_torrent, Except.isOk, Except.toBool]

/-- Witness for C6 at concrete requests: the uploader updates her own
torrent, an administrator deletes, an authenticated user downloads. -/
theorem C6_authorization_matrix_witness :
    (update_torrent (.ok aliceUser) (.ok 5)
        (.ok { torrent_id := 5, uploader := "alice" }) (.ok 1)).isOk
      = true ∧
    (delete_torrent (.ok adminUser) (.ok 5) (.ok 1)).isOk = true ∧
    (download_torrent (.ok 5) (.ok aliceUser) (.ok sampleTorrent)
        (.ok "announce")).isOk = true :=
  ⟨(C6_authorization_matrix.1 aliceUser 5
      { torrent_id := 5, uploader := "alice" } 1 (by decide)).mpr
      (Or.inl rfl),
   (C6_authorization_matrix.2.2.2.1 adminUser 5 1 (by decide)).mpr rfl,
   (C6_authorization_matrix.2.2.2.2.2.2 (.ok aliceUser) 5 sampleTorrent
      "announce").mpr ⟨aliceUser, rfl⟩⟩

/-- Claim C7: the download personalization sets `announce` to the
personal announce URL, prepends the one-URL tier to `announce_list`
exactly when one is present, leaves the info dictionary (and with it
the info hash) unchanged, and the download handler serves exactly the
re-encoding of the personalized metainfo. -/
theorem C7_personalize_frame (torrent : Torrent) (url : String) (tid : Int)
    (u : User) :
    (personalizeAnnounce torrent url).announce = some url ∧
    (personalizeAnnounce torrent url).announce_list =
      (match torrent.announce_list with
       | some list => some ([url] :: list)
       | none => none) ∧
    (personalizeAnnounce torrent url).info = torrent.info ∧
    info_hash (personalizeAnnounce torrent url) = info_hash torrent ∧
    download_torrent (.ok tid) (.ok u) (.ok torrent) (.ok url) =
      .ok (bencodeTorrent (personalizeAnnounce torrent url)) := by
  refine ⟨?_, ?_, ?_, ?_, rfl⟩ <;>
    cases h : torrent.announce_list <;>
      simp [personalizeAnnounce, info_hash, h]

/-- Claim C8: every sort value outside the ten known keys (and an
absent sort value) yields the default order `upload_date DESC`, and
each known key maps to its specified column and direction. -/
theorem C8_sort_closure :
    (∀ s : String, s ∉ knownSortKeys →
      sort_query (some s) = "upload_date DESC") ∧
    sort_query none = "upload_date DESC" ∧
    sort_query (some "uploaded_ASC") = "upload_date ASC" ∧
    sort_query (some "uploaded_DESC") = "upload_date DESC" ∧
    sort_query (some "seeders_ASC") = "seeders ASC" ∧
    sort_query (some "seeders_DESC") = "seeders DESC" ∧
    sort_query (some "leechers_ASC") = "leechers ASC" ∧
    sort_query (some "leechers_DESC") = "leechers DESC" ∧
    sort_query (some "name_ASC") = "title ASC" ∧
    sort_query (some "name_DESC") = "title DESC" ∧
    sort_query (some "size_ASC") = "file_size ASC" ∧
    sort_query (some "size_DESC") = "file_size DESC" := by
  refine ⟨?_, rfl, rfl, rfl, rfl, rfl, rfl, rfl, rfl, rfl, rfl, rfl⟩
  intro s hs
  simp only [knownSortKeys, List.mem_cons, List.not_mem_nil, or_false,
    not_or] at hs
  obtain ⟨h1, h2, h3, h4, h5, h6, h7, h8, h9, h10⟩ := hs
  unfold sort_query
  split <;> simp_all

/-- Witness for C8 at a concrete unknown key. -/
theorem C8_sort_closure_witness :
    sort_query (some "alphabetical") = "upload_date DESC" :=
  C8_sort_closure.1 "alphabetical" (by decide)

/-- Counterexample to claim C9 as stated: the handler validates
neither the sign of `page`, nor the positivity of `page_size`, nor any
cap — a request with `page = -1` and `page_size = 0` passes through
unchecked, and no fixed maximum bounds the effective page size. -/
theorem C9_validation_counterexample :
    ¬ pagingValidationClaim ∧
    ¬ (∀ p : DisplayInfo, 0 ≤ effectivePage p ∧ 0 < effectivePageSize p) ∧
    ¬ (∃ cap : Int, ∀ p : DisplayInfo, effectivePageSize p ≤ cap) := by
  have h1 : ¬ (∀ p : DisplayInfo,
      0 ≤ effectivePage p ∧ 0 < effectivePageSize p) := by
    intro h
    have := (h { page_size := some 0, page := some (-1), sort := none,
                 categories := none, search := none }).1
    simp [effectivePage] at this
  have h2 : ¬ (∃ cap : Int, ∀ p : DisplayInfo,
      effectivePageSize p ≤ cap) := by
    rintro ⟨cap, h⟩
    have := h { page_size := some (cap + 1), page := none, sort := none,
                categories := none, search := none }
    simp [effectivePageSize] at this
  exact ⟨fun hc => h1 hc.2.2.1, h1, h2⟩

/-- Claim C9 as amended: `page` defaults to 0 and `page_size` to 30,
no non-negativity, positivity or cap validation is performed — the
values are used as supplied, and the issued result statement binds the
offset `page * page_size` (as an `i32` product) and the limit
`page_size`. -/
theorem C9_paging_amended :
    effectivePage emptyParams = 0 ∧
    effectivePageSize emptyParams = 30 ∧
    (∀ (ps pg : Option Int) (srt : Option String)
        (cats : Option (List String)) (s : Option String),
      effectivePage ⟨ps, pg, srt, cats, s⟩ = pg.getD 0 ∧
      effectivePageSize ⟨ps, pg, srt, cats, s⟩ = ps.getD 30 ∧
      listingOffset ⟨ps, pg, srt, cats, s⟩ =
        wrap32 (pg.getD 0 * ps.getD 30) ∧
      (∀ table : List String,
        (rowsQuery table ⟨ps, pg, srt, cats, s⟩).binds =
          [.str (searchPattern ⟨ps, pg, srt, cats, s⟩),
           .int (wrap32 (pg.getD 0 * ps.getD 30)),
           .int (ps.getD 30)])) :=
  ⟨rfl, rfl, fun _ _ _ _ _ => ⟨rfl, rfl, rfl, fun _ => rfl⟩⟩

/-- Claim C10: the multipart intake is not total — a text part whose
first chunk is not valid UTF-8 panics, and so does a part lacking a
content-disposition name (or the whole content-disposition header),
instead of returning an error value. -/
theorem C10_intake_panics :
    get_torrent_request_from_payload
      [.ok { disposition := some (some "title"), contentType := none,
             chunks := [.ok [255]] }] = .panicked ∧
    get_torrent_request_from_payload
      [.ok { disposition := some none, contentType := none, chunks := [] }]
        = .panicked ∧
    get_torrent_request_from_payload
      [.ok { disposition := none, contentType := none, chunks := [] }]
        = .panicked := by
  decide

end Torrust
